import Mathlib

/-!
Shallow embedding of the `my-bus-tracker-rs` client library (src/src/lib.rs,
src/src/bustimes.rs, src/src/disruptions.rs, src/src/models.rs).

Modelling conventions:
* A UTC instant (`chrono::DateTime<Utc>`) is modelled hour-and-minute deep as
  `UtcDateTime` (year/month/day/hour/minute); `.hour` is the hour-of-day field,
  exactly what the chrono method `DateTime::hour()` returns, and the `%Y%m%d%H`
  formatter uses year/month/day/hour only, as in the source.
* A UTC date (`chrono::Date<Utc>`) is modelled as its absolute day number
  (`Int`); `Date::signed_duration_since` is then plain integer subtraction,
  and `Duration::num_days` is the identity, matching the exact day
  arithmetic of chrono.
* The MD5 hex digest computed by the external `md5` crate is not repository
  code; every operation is parameterised by the digest function
  `md5hex : String → String`, so theorems hold for the real MD5 as a special
  case.
* Facade methods return `ApiKey × Except MyBusTrackerError String`: the final
  key-manager state paired with either the validation error (in which case no
  HTTP request is issued, mirroring the early `return Box::new(futures::failed(..))`
  paths) or the full request URI handed to `make_request`.
* `slog` logging calls are pure tracing and are omitted.
-/

/-- Model of `chrono::DateTime<Utc>`, truncated to minute precision.
`hour` is the hour of day (0-23), which is what `DateTime::hour()` returns. -/
structure UtcDateTime where
  year : Nat
  month : Nat
  day : Nat
  hour : Nat
  minute : Nat
  deriving DecidableEq, Repr

/-- Zero-pad a natural number to two digits, as the chrono formats `%m`, `%d` and `%H` do. -/
def pad2 (n : Nat) : String :=
  if n < 10 then "0" ++ toString n else toString n

/-- Zero-pad a natural number to four digits, as the chrono format `%Y` does
(for the years in range of this application). -/
def pad4 (n : Nat) : String :=
  if n < 10 then "000" ++ toString n
  else if n < 100 then "00" ++ toString n
  else if n < 1000 then "0" ++ toString n
  else toString n

/-- `time.format("%Y%m%d%H")` from `generate_api_key` (src/src/lib.rs:243). -/
def formatYYYYMMDDHH (t : UtcDateTime) : String :=
  pad4 t.year ++ pad2 t.month ++ pad2 t.day ++ pad2 t.hour

/-- Model of `chrono::NaiveTime`, truncated to the minute (the code only ever
formats it with `%H:%M`). -/
structure NaiveTimeModel where
  hour : Nat
  minute : Nat
  deriving DecidableEq, Repr

/-- `time.format("%H:%M")` from `get_bus_times` (src/src/bustimes.rs:80). -/
def formatHHMM (t : NaiveTimeModel) : String :=
  pad2 t.hour ++ ":" ++ pad2 t.minute

/-- The error enum `MyBusTrackerError` (src/src/lib.rs:66-77). -/
inductive MyBusTrackerError where
  | InternalError (cause : String)
  | CommunicationError (cause : String)
  | DateOutOfBounds
  | TooManyTimetables
  | TooManyDepartures
  deriving DecidableEq, Repr

/-- `fn generate_api_key` (src/src/lib.rs:234-253): concatenate the developer
key with the current UTC time formatted `%Y%m%d%H` and hash it.  `md5hex`
stands for `format!("{:x}", md5::compute(..))` of the external md5 crate. -/
def generate_api_key (md5hex : String → String) (base_key : String)
    (now : UtcDateTime) : String × UtcDateTime :=
  let time_string := formatYYYYMMDDHH now
  let raw_key := base_key ++ time_string
  let computed_key_string := md5hex raw_key
  (computed_key_string, now)

/-- The `ApiKey` struct (src/src/lib.rs:94-99), minus the logger. -/
structure ApiKey where
  raw_api_key : String
  key : String
  generated : UtcDateTime
  deriving DecidableEq, Repr

/-- `ApiKey::new` (src/src/lib.rs:103-113). -/
def ApiKey.new (md5hex : String → String) (api_key : String)
    (now : UtcDateTime) : ApiKey :=
  let kg := generate_api_key md5hex api_key now
  { raw_api_key := api_key, key := kg.1, generated := kg.2 }

/-- `ApiKey::get_key` (src/src/lib.rs:121-140).  Takes the current instant
explicitly (the Rust reads `Utc::now()`); returns the mutated state and the
returned key.  Note the guard compares only `hour()`, the hour of day. -/
def ApiKey.get_key (st : ApiKey) (md5hex : String → String)
    (now : UtcDateTime) : ApiKey × String :=
  if st.generated.hour = now.hour then
    (st, st.key)
  else
    let kg := generate_api_key md5hex st.raw_api_key now
    ({ st with key := kg.1, generated := kg.2 }, kg.1)

/-- The scheme/host/path part of the root URL parsed in `MyBusTracker::new`
(src/src/lib.rs:152): `Url::parse("http://ws.mybustracker.co.uk/?module=json")`. -/
def rootUrlBase : String := "http://ws.mybustracker.co.uk/"

/-- The static query of the root URL; `self.root_url.query()` returns
`Some("module=json")` in `get_uri` (src/src/lib.rs:174). -/
def rootUrlQuery : String := "module=json"

/-- `MyBusTracker::get_uri` (src/src/lib.rs:166-187).  Builds
`key=<key>&function=<f>[&<params>]`, prepends the static base query, and
re-attaches the query to the root URL.  The `Uri` re-parse cannot fail on the
strings at issue and is modelled as the identity; the result string is the
full request URI. -/
def MyBusTracker.get_uri (md5hex : String → String) (st : ApiKey)
    (now : UtcDateTime) (function : String) (uri_params : Option String) :
    ApiKey × String :=
  let kk := ApiKey.get_key st md5hex now
  let api_key := kk.2
  let merged_params := match uri_params with
    | none => "key=" ++ api_key ++ "&function=" ++ function
    | some params => "key=" ++ api_key ++ "&function=" ++ function ++ "&" ++ params
  let query_string := rootUrlQuery ++ "&" ++ merged_params
  (kk.1, rootUrlBase ++ "?" ++ query_string)

/-- The `Operator` enum (src/src/models.rs:96-99). -/
inductive Operator where
  | LothianBuses
  | AllOperators
  deriving DecidableEq, Repr

/-- `impl Display for Operator` (src/src/models.rs:101-109). -/
def Operator.display : Operator → String
  | .LothianBuses => "LB"
  | .AllOperators => "0"

/-- `impl Deserialize for Operator` (src/src/models.rs:111-123): match on the
wire string, unknown codes are a hard decode error. -/
def Operator.deserialize (s : String) : Except String Operator :=
  if s = "LB" then .ok .LothianBuses
  else if s = "0" then .ok .AllOperators
  else if s = "ALL" then .ok .AllOperators
  else .error ("Unknown Operator: " ++ s)

/-- The `Reliability` enum with its serde renames (src/src/models.rs:62-82);
the derived deserializer matches the rename strings and rejects the rest. -/
inductive Reliability where
  | Delayed
  | Delocated
  | RealTimeNotLowFloorEquipped
  | RealTimeLowFloorEquipped
  | Immobilized
  | Neutralized
  | RadioFault
  | Estimated
  | Diverted
  deriving DecidableEq, Repr

/-- Serde-derived deserializer for `Reliability` (src/src/models.rs:62-82). -/
def Reliability.deserialize (s : String) : Except String Reliability :=
  if s = "B" then .ok .Delayed
  else if s = "D" then .ok .Delocated
  else if s = "F" then .ok .RealTimeNotLowFloorEquipped
  else if s = "H" then .ok .RealTimeLowFloorEquipped
  else if s = "I" then .ok .Immobilized
  else if s = "N" then .ok .Neutralized
  else if s = "R" then .ok .RadioFault
  else if s = "T" then .ok .Estimated
  else if s = "V" then .ok .Diverted
  else .error ("unknown variant " ++ s)

/-- The `StopType` enum with its serde renames (src/src/models.rs:83-93). -/
inductive StopType where
  | Terminus
  | Normal
  | PartRoute
  | Reference
  deriving DecidableEq, Repr

/-- Serde-derived deserializer for `StopType` (src/src/models.rs:83-93). -/
def StopType.deserialize (s : String) : Except String StopType :=
  if s = "D" then .ok .Terminus
  else if s = "N" then .ok .Normal
  else if s = "P" then .ok .PartRoute
  else if s = "R" then .ok .Reference
  else .error ("unknown variant " ++ s)

/-- The `Direction` enum with its serde renames (src/src/models.rs:253-259). -/
inductive Direction where
  | Inbound
  | Outbound
  deriving DecidableEq, Repr

/-- Serde-derived deserializer for `Direction` (src/src/models.rs:253-259). -/
def Direction.deserialize (s : String) : Except String Direction :=
  if s = "A" then .ok .Inbound
  else if s = "R" then .ok .Outbound
  else .error ("unknown variant " ++ s)

/-- The `DisruptionType` enum (src/src/models.rs:284-290). -/
inductive DisruptionType where
  | All
  | Network
  | Service
  | BusStop
  deriving DecidableEq, Repr

/-- `impl Deserialize for DisruptionType` (src/src/models.rs:292-306): the
wire code is a `u8`; unknown codes are a hard decode error. -/
def DisruptionType.deserialize (i : Nat) : Except String DisruptionType :=
  if i = 0 then .ok .All
  else if i = 1 then .ok .Network
  else if i = 2 then .ok .Service
  else if i = 3 then .ok .BusStop
  else .error ("Unknown Disruption Type: " ++ toString i)

/-- `impl Display for DisruptionType` (src/src/models.rs:308-318). -/
def DisruptionType.display : DisruptionType → String
  | .All => "0"
  | .Network => "1"
  | .Service => "2"
  | .BusStop => "3"

/-- The `DisruptionLevel` enum (src/src/models.rs:325-330). -/
inductive DisruptionLevel where
  | Informative
  | Minor
  | Major
  deriving DecidableEq, Repr

/-- `impl Deserialize for DisruptionLevel` (src/src/models.rs:332-345). -/
def DisruptionLevel.deserialize (i : Nat) : Except String DisruptionLevel :=
  if i = 1 then .ok .Informative
  else if i = 2 then .ok .Minor
  else if i = 3 then .ok .Major
  else .error ("Unknown Disruption Level: " ++ toString i)

/-- The request-side `Timetable` struct (src/src/models.rs:10-16). -/
structure Timetable where
  stop_id : String
  service_reference : String
  destination_reference : String
  operator_id : Operator
  deriving DecidableEq, Repr

/-- The `JourneyIdentifier` enum (src/src/models.rs:125-129). -/
inductive JourneyIdentifier where
  | JourneyId (s : String)
  | BusId (s : String)
  deriving DecidableEq, Repr

/-- The `JourneyTimeMode` enum (src/src/models.rs:131-135). -/
inductive JourneyTimeMode where
  | All
  | NextReference
  deriving DecidableEq, Repr

/-- `impl Display for JourneyTimeMode` (src/src/models.rs:137-145). -/
def JourneyTimeMode.display : JourneyTimeMode → String
  | .All => "0"
  | .NextReference => "1"

/-- One element of the `time_requests` map in `get_bus_times`
(src/src/bustimes.rs:87-95): `format!("stopId{0}={1}&refService{0}={2}&refDest{0}={3}", ..)`
at (already 1-based) index `i`.  Note `operator_id` is not used. -/
def timetableParam (i : Nat) (item : Timetable) : String :=
  "stopId" ++ toString i ++ "=" ++ item.stop_id ++
  "&refService" ++ toString i ++ "=" ++ item.service_reference ++
  "&refDest" ++ toString i ++ "=" ++ item.destination_reference

/-- The joined `time_requests` string (src/src/bustimes.rs:84-97):
`enumerate`, format each entry at index `i + 1`, `join("&")`. -/
def timeRequests (timetables : List Timetable) : String :=
  String.intercalate "&"
    ((timetables.enum).map (fun p => timetableParam (p.1 + 1) p.2))

/-- `BusTimesService::get_bus_times` for `MyBusTracker`
(src/src/bustimes.rs:47-114) up to the point where the HTTP request is
issued.  `today` is `Utc::today()` as an absolute day number, a departure day
is likewise a day number.  `.ok uri` means a GET to `uri` is issued;
`.error e` means the call fails before any network access. -/
def get_bus_times (md5hex : String → String) (st : ApiKey)
    (now : UtcDateTime) (today : Int) (timetables : List Timetable)
    (departure_count : Nat) (departure_day : Option Int)
    (departure_time : Option NaiveTimeModel) :
    ApiKey × Except MyBusTrackerError String :=
  if timetables.length > 5 then
    (st, .error .TooManyTimetables)
  else if departure_count > 10 then
    (st, .error .TooManyDepartures)
  else
    let day_difference : Int := match departure_day with
      | some d => d - today
      | none => 0
    if day_difference > 3 ∨ day_difference < 0 then
      (st, .error .DateOutOfBounds)
    else
      let departure_time_string := match departure_time with
        | some t => "&time=" ++ formatHHMM t
        | none => ""
      let uri_params :=
        timeRequests timetables ++ "&nb=" ++ toString departure_count ++
        "&day=" ++ toString day_difference ++ departure_time_string
      let r := MyBusTracker.get_uri md5hex st now "getBusTimes" (some uri_params)
      (r.1, .ok r.2)

/-- `BusTimesService::get_journey_times` for `MyBusTracker`
(src/src/bustimes.rs:116-166) up to the point where the HTTP request is
issued. -/
def get_journey_times (md5hex : String → String) (st : ApiKey)
    (now : UtcDateTime) (today : Int) (stop_id : Option String)
    (journey_id : JourneyIdentifier) (operator : Operator) (day : Int)
    (mode : JourneyTimeMode) : ApiKey × Except MyBusTrackerError String :=
  let stop_id_string := match stop_id with
    | some stop => "stopId=" ++ stop ++ "&"
    | none => ""
  let journey_id_string := match journey_id with
    | .JourneyId journey => "journeyId=" ++ journey ++ "&"
    | .BusId bus => "busId=" ++ bus ++ "&"
  let day_difference : Int := day - today
  if day_difference > 3 ∨ day_difference < 0 then
    (st, .error .DateOutOfBounds)
  else
    let uri_params :=
      stop_id_string ++ journey_id_string ++ "operator=" ++ operator.display ++
      "&day=" ++ toString day_difference ++ "&mode=" ++ mode.display
    let r := MyBusTracker.get_uri md5hex st now "getJourneyTimes" (some uri_params)
    (r.1, .ok r.2)

/-- `DisruptionsServices::get_diversions` for `MyBusTracker`
(src/src/disruptions.rs:76-114) up to the point where the HTTP request is
issued. -/
def get_diversions (md5hex : String → String) (st : ApiKey)
    (now : UtcDateTime) (today : Int) (service_reference : Option String)
    (day : Option Int) (operator : Operator) :
    ApiKey × Except MyBusTrackerError String :=
  let service_ref := service_reference.getD "0"
  let day_difference : Int := match day with
    | some d => d - today
    | none => 0
  if day_difference > 3 ∨ day_difference < 0 then
    (st, .error .DateOutOfBounds)
  else
    let uri_params :=
      "operatorId=" ++ operator.display ++ "&refService=" ++ service_ref ++
      "&day=" ++ toString day_difference
    let r := MyBusTracker.get_uri md5hex st now "getDiversions" (some uri_params)
    (r.1, .ok r.2)

/-- `DisruptionsServices::get_disruptions` for `MyBusTracker`
(src/src/disruptions.rs:47-74): no client-side validation, the request is
always issued. -/
def get_disruptions (md5hex : String → String) (st : ApiKey)
    (now : UtcDateTime) (disruption_type : Option DisruptionType)
    (operator : Operator) : ApiKey × Except MyBusTrackerError String :=
  let dt := disruption_type.getD .All
  let uri_params :=
    "operatorId=" ++ operator.display ++ "&type=" ++ dt.display
  let r := MyBusTracker.get_uri md5hex st now "getDisruptions" (some uri_params)
  (r.1, .ok r.2)

/-- Decidable equality for request-issuing results (used to evaluate the
model at concrete inputs). -/
instance {ε α : Type} [DecidableEq ε] [DecidableEq α] : DecidableEq (Except ε α) :=
  fun a b =>
    match a, b with
    | .ok x, .ok y =>
        if h : x = y then .isTrue (by rw [h])
        else .isFalse (by intro hh; cases hh; exact h rfl)
    | .error x, .error y =>
        if h : x = y then .isTrue (by rw [h])
        else .isFalse (by intro hh; cases hh; exact h rfl)
    | .ok _, .error _ => .isFalse (by intro hh; cases hh)
    | .error _, .ok _ => .isFalse (by intro hh; cases hh)

/-- Two instants lie in the same UTC clock hour: same calendar date and same
hour of day (they may differ in the minute). -/
def sameUtcClockHour (t1 t2 : UtcDateTime) : Prop :=
  t1.year = t2.year ∧ t1.month = t2.month ∧ t1.day = t2.day ∧ t1.hour = t2.hour

/-- Two request timetables agree on every field that `get_bus_times` ever
reads (everything except `operator_id`). -/
def sameTimetableButOperator (a b : Timetable) : Prop :=
  a.stop_id = b.stop_id ∧ a.service_reference = b.service_reference ∧
  a.destination_reference = b.destination_reference

/-- Decides whether the first character list is an initial segment of the
second (statement-level helper for the substring assertions of the spec). -/
def leadsWith : List Char → List Char → Bool
  | [], _ => true
  | _ :: _, [] => false
  | c :: cs, d :: ds => c = d && leadsWith cs ds

/-- Decides whether the first character list occurs contiguously anywhere in
the second (statement-level helper for the substring assertions of the spec). -/
def hasSeq (p : List Char) : List Char → Bool
  | [] => leadsWith p []
  | c :: rest => leadsWith p (c :: rest) || hasSeq p rest

/-- Concrete key-manager state for evaluating theorems at specific inputs:
constructed with the identity as digest function, secret `k`, at
2026-10-12 09:00 UTC. -/
def stEx : ApiKey := ApiKey.new id "k" ⟨2026,10,12,9,0⟩

/-- Concrete instant 2026-10-12 09:30 UTC for evaluating theorems. -/
def nowEx : UtcDateTime := ⟨2026,10,12,9,30⟩

/-- Concrete request timetable for evaluating theorems. -/
def ttEx : Timetable := ⟨"s","r","d", .AllOperators⟩

/-- Unfolding lemma: when the stored generation hour of day equals the hour
of day of the current instant, `get_key` returns the stored key and leaves
the state unchanged (the skip branch of src/src/lib.rs:129-133). -/
theorem get_key_hour_eq (md5hex : String → String) (st : ApiKey)
    (now : UtcDateTime) (h : st.generated.hour = now.hour) :
    st.get_key md5hex now = (st, st.key) := by
  unfold ApiKey.get_key
  rw [if_pos h]

/-- Unfolding lemma: when the hours of day differ, `get_key` recomputes the
key from the current instant (the recompute branch of src/src/lib.rs:134-138). -/
theorem get_key_hour_ne (md5hex : String → String) (st : ApiKey)
    (now : UtcDateTime) (h : ¬ st.generated.hour = now.hour) :
    st.get_key md5hex now =
      ({ st with
          key := md5hex (st.raw_api_key ++ formatYYYYMMDDHH now),
          generated := now },
        md5hex (st.raw_api_key ++ formatYYYYMMDDHH now)) := by
  unfold ApiKey.get_key generate_api_key
  rw [if_neg h]

/-- Congruence lemma: the per-timetable query fragment does not read
`operator_id`. -/
theorem timetableParam_congr (i : Nat) (a b : Timetable)
    (h : sameTimetableButOperator a b) : timetableParam i a = timetableParam i b := by
  obtain ⟨h1, h2, h3⟩ := h
  simp [timetableParam, h1, h2, h3]

/-- Congruence lemma for the enumerated, formatted timetable list. -/
theorem enumFrom_map_timetableParam_congr (n : Nat) {l1 l2 : List Timetable}
    (h : List.Forall₂ sameTimetableButOperator l1 l2) :
    (List.enumFrom n l1).map (fun p => timetableParam (p.1 + 1) p.2)
      = (List.enumFrom n l2).map (fun p => timetableParam (p.1 + 1) p.2) := by
  induction h generalizing n with
  | nil => rfl
  | cons hab htl ih =>
      simp only [List.enumFrom, List.map]
      rw [timetableParam_congr _ _ _ hab, ih]

/-- Congruence lemma for the joined `time_requests` string. -/
theorem timeRequests_congr {l1 l2 : List Timetable}
    (h : List.Forall₂ sameTimetableButOperator l1 l2) :
    timeRequests l1 = timeRequests l2 := by
  simp only [timeRequests, List.enum]
  rw [enumFrom_map_timetableParam_congr 0 h]

/-- C1: the claim states that at every read, a token whose generation hour
(the full hour-truncated UTC timestamp) differs from the current one is
recomputed, so the returned token is always derived from the current
`YYYYMMDDHH` string.  The code compares only the hour of day (0-23): a state
generated at 2026-10-11 10:00 UTC and read at 2026-10-12 10:00 UTC (one day
later, same hour of day) skips regeneration and returns the stale token of
the previous day, although the two hour strings differ.  The final conjunct
evaluates the violation with the identity digest: the returned token is not
the token derived from the hour string of the read instant. -/
theorem C1_get_key_stale_across_days :
    (∀ md5hex : String → String,
        (ApiKey.new md5hex "secret" ⟨2026,10,11,10,0⟩).get_key md5hex ⟨2026,10,12,10,0⟩
          = (ApiKey.new md5hex "secret" ⟨2026,10,11,10,0⟩, md5hex ("secret" ++ "2026101110")))
    ∧ formatYYYYMMDDHH ⟨2026,10,11,10,0⟩ = "2026101110"
    ∧ formatYYYYMMDDHH ⟨2026,10,12,10,0⟩ = "2026101210"
    ∧ ((ApiKey.new id "secret" ⟨2026,10,11,10,0⟩).get_key id ⟨2026,10,12,10,0⟩).2
        ≠ (generate_api_key id "secret" ⟨2026,10,12,10,0⟩).1 := by
  refine ⟨fun md5hex => rfl, rfl, rfl, by decide⟩

/-- C2: `generate_api_key` returns exactly the digest of the secret
concatenated with the `YYYYMMDDHH` formatting of the given instant, and the
token is a pure function of the secret and that hour string: instants with
equal hour strings give equal tokens. -/
theorem C2_generate_api_key_deterministic (md5hex : String → String)
    (secret : String) (t t1 t2 : UtcDateTime)
    (h : formatYYYYMMDDHH t1 = formatYYYYMMDDHH t2) :
    generate_api_key md5hex secret t = (md5hex (secret ++ formatYYYYMMDDHH t), t)
    ∧ (generate_api_key md5hex secret t1).1 = (generate_api_key md5hex secret t2).1 := by
  refine ⟨rfl, ?_⟩
  simp [generate_api_key, h]

theorem C2_witness :
    generate_api_key id "k" ⟨2026,10,12,9,0⟩
      = (id ("k" ++ formatYYYYMMDDHH ⟨2026,10,12,9,0⟩), ⟨2026,10,12,9,0⟩)
    ∧ (generate_api_key id "k" ⟨2026,10,12,9,0⟩).1
      = (generate_api_key id "k" ⟨2026,10,12,9,59⟩).1 :=
  C2_generate_api_key_deterministic id "k" ⟨2026,10,12,9,0⟩ ⟨2026,10,12,9,0⟩
    ⟨2026,10,12,9,59⟩ (by decide)

/-- C3 counterexample: the claim asserts that a date outside the 0-3 day
window always fails with the date-out-of-bounds kind regardless of other
arguments.  At a concrete input with six timetable entries and a departure
day four days ahead, `get_bus_times` fails with the too-many-timetables kind
instead, because the batch-size check precedes the date check
(src/src/bustimes.rs:62 before :75). -/
theorem C3_counterexample :
    (get_bus_times id stEx nowEx 100 (List.replicate 6 ttEx) 2 (some 104) none).2
      = .error .TooManyTimetables
    ∧ (get_bus_times id stEx nowEx 100 (List.replicate 6 ttEx) 2 (some 104) none).2
        ≠ .error .DateOutOfBounds := by
  decide

/-- C3 (amended): for every date `d`, client-side date validation succeeds
iff `0 ≤ d - today ≤ 3` days; outside the window `get_journey_times` and
`get_diversions` always fail with the date-out-of-bounds kind, and
`get_bus_times` does so provided its earlier validations pass (at most five
timetables and a departure count of at most ten), the earlier validation
error taking precedence otherwise. -/
theorem C3_date_window (md5hex : String → String) (st : ApiKey) (now : UtcDateTime)
    (today d : Int) :
    (∀ (timetables : List Timetable) (departure_count : Nat)
        (departure_time : Option NaiveTimeModel),
        timetables.length ≤ 5 → departure_count ≤ 10 →
        (((get_bus_times md5hex st now today timetables departure_count
              (some d) departure_time).2 = .error .DateOutOfBounds)
            ↔ (d - today > 3 ∨ d - today < 0))
        ∧ ((get_bus_times md5hex st now today timetables departure_count
              (some d) departure_time).2.isOk = true
            ↔ (0 ≤ d - today ∧ d - today ≤ 3)))
    ∧ (∀ (stop_id : Option String) (journey_id : JourneyIdentifier)
        (operator : Operator) (mode : JourneyTimeMode),
        (((get_journey_times md5hex st now today stop_id journey_id operator d
              mode).2 = .error .DateOutOfBounds)
            ↔ (d - today > 3 ∨ d - today < 0))
        ∧ ((get_journey_times md5hex st now today stop_id journey_id operator d
              mode).2.isOk = true
            ↔ (0 ≤ d - today ∧ d - today ≤ 3)))
    ∧ (∀ (service_reference : Option String) (operator : Operator),
        (((get_diversions md5hex st now today service_reference (some d)
              operator).2 = .error .DateOutOfBounds)
            ↔ (d - today > 3 ∨ d - today < 0))
        ∧ ((get_diversions md5hex st now today service_reference (some d)
              operator).2.isOk = true
            ↔ (0 ≤ d - today ∧ d - today ≤ 3))) := by
  refine ⟨fun timetables departure_count departure_time h1 h2 => ?_,
          fun stop_id journey_id operator mode => ?_,
          fun service_reference operator => ?_⟩
  · have hn5 : ¬ (timetables.length > 5) := by omega
    have hn10 : ¬ (departure_count > 10) := by omega
    simp only [get_bus_times.eq_def, hn5, hn10, if_false, ite_false]
    split_ifs with hd <;> refine ⟨?_, ?_⟩ <;>
      simp [Except.isOk, Except.toBool] <;> omega
  · simp only [get_journey_times.eq_def]
    split_ifs with hd <;> refine ⟨?_, ?_⟩ <;>
      simp [Except.isOk, Except.toBool] <;> omega
  · simp only [get_diversions.eq_def]
    split_ifs with hd <;> refine ⟨?_, ?_⟩ <;>
      simp [Except.isOk, Except.toBool] <;> omega

theorem C3_witness :
    ((get_bus_times id stEx nowEx 100 [] 2 (some 104) none).2 = .error .DateOutOfBounds)
    ∧ ((get_journey_times id stEx nowEx 100 none (.JourneyId "12345")
          .AllOperators 101 .All).2.isOk = true) :=
  ⟨((C3_date_window id stEx nowEx 100 104).1 [] 2 none (by decide) (by decide)).1.mpr
      (by decide),
   ((C3_date_window id stEx nowEx 100 101).2.1 none (.JourneyId "12345")
      .AllOperators .All).2.mpr (by decide)⟩

/-- C4: a `get_bus_times` call is rejected with the too-many-timetables kind
iff the batch has more than five entries; in that case the call returns
exactly the unchanged state paired with the error, so no request is issued;
every batch of at most five entries (including the empty batch) passes this
check. -/
theorem C4_too_many_timetables_iff (md5hex : String → String) (st : ApiKey)
    (now : UtcDateTime) (today : Int) (timetables : List Timetable)
    (departure_count : Nat) (departure_day : Option Int)
    (departure_time : Option NaiveTimeModel) :
    ((get_bus_times md5hex st now today timetables departure_count departure_day
        departure_time).2 = .error .TooManyTimetables ↔ 5 < timetables.length)
    ∧ (get_bus_times md5hex st now today timetables departure_count departure_day
        departure_time = (st, .error .TooManyTimetables) ↔ 5 < timetables.length) := by
  simp only [get_bus_times.eq_def]
  split_ifs with h1 h2 h3 <;> refine ⟨?_, ?_⟩ <;> simp [Prod.ext_iff] <;> omega

/-- C5: whenever a facade method fails with one of the three validation
error kinds, the key-manager state is returned unchanged; the error is
produced before `get_uri` (and hence before `get_key` and the HTTP request),
so in the model the `.error` result carries no request URI at all. -/
theorem C5_validation_failure_no_side_effects (md5hex : String → String)
    (st : ApiKey) (now : UtcDateTime) (today : Int) :
    (∀ (timetables : List Timetable) (departure_count : Nat)
        (departure_day : Option Int) (departure_time : Option NaiveTimeModel)
        (e : MyBusTrackerError),
        (get_bus_times md5hex st now today timetables departure_count
            departure_day departure_time).2 = .error e →
        (e = .DateOutOfBounds ∨ e = .TooManyTimetables ∨ e = .TooManyDepartures) →
        (get_bus_times md5hex st now today timetables departure_count
            departure_day departure_time).1 = st)
    ∧ (∀ (stop_id : Option String) (journey_id : JourneyIdentifier)
        (operator : Operator) (day : Int) (mode : JourneyTimeMode)
        (e : MyBusTrackerError),
        (get_journey_times md5hex st now today stop_id journey_id operator day
            mode).2 = .error e →
        (e = .DateOutOfBounds ∨ e = .TooManyTimetables ∨ e = .TooManyDepartures) →
        (get_journey_times md5hex st now today stop_id journey_id operator day
            mode).1 = st)
    ∧ (∀ (service_reference : Option String) (day : Option Int)
        (operator : Operator) (e : MyBusTrackerError),
        (get_diversions md5hex st now today service_reference day operator).2
          = .error e →
        (e = .DateOutOfBounds ∨ e = .TooManyTimetables ∨ e = .TooManyDepartures) →
        (get_diversions md5hex st now today service_reference day operator).1
          = st) := by
  refine ⟨fun timetables departure_count departure_day departure_time e h1 _ => ?_,
          fun stop_id journey_id operator day mode e h1 _ => ?_,
          fun service_reference day operator e h1 _ => ?_⟩
  · simp only [get_bus_times.eq_def] at h1 ⊢
    split_ifs at h1 ⊢ <;> simp_all
  · simp only [get_journey_times.eq_def] at h1 ⊢
    split_ifs at h1 ⊢
    all_goals simp_all
  · simp only [get_diversions.eq_def] at h1 ⊢
    split_ifs at h1 ⊢
    all_goals simp_all

theorem C5_witness :
    (get_bus_times id stEx nowEx 100 (List.replicate 6 ttEx) 2 none none).1 = stEx :=
  (C5_validation_failure_no_side_effects id stEx nowEx 100).1
    (List.replicate 6 ttEx) 2 none none .TooManyTimetables (by decide)
    (Or.inr (Or.inl rfl))

/-- C6: for every function name and parameter string, `get_uri` produces the
URI whose query string is the fixed static base query `module=json`, then
`key=<current token>&function=<f>`, then the parameters of the caller in the
order supplied (and nothing after the function name when no parameters are
supplied). -/
theorem C6_get_uri_query_assembly (md5hex : String → String) (st : ApiKey)
    (now : UtcDateTime) (function params : String) :
    rootUrlQuery = "module=json"
    ∧ (MyBusTracker.get_uri md5hex st now function none).2
        = rootUrlBase ++ "?" ++ rootUrlQuery ++ "&" ++ "key="
          ++ (st.get_key md5hex now).2 ++ "&function=" ++ function
    ∧ (MyBusTracker.get_uri md5hex st now function (some params)).2
        = rootUrlBase ++ "?" ++ rootUrlQuery ++ "&" ++ "key="
          ++ (st.get_key md5hex now).2 ++ "&function=" ++ function ++ "&" ++ params := by
  refine ⟨rfl, ?_, ?_⟩ <;>
    simp only [MyBusTracker.get_uri, String.append_assoc]

/-- C7: for each enumerated wire-code type (reliability, stop type,
direction, disruption level, disruption type, operator), the deserializer
succeeds exactly on the documented codes, each documented code mapping to
its one named variant, and every undocumented code yields a decode error
rather than a fallback variant. -/
theorem C7_enum_codes_decode :
    (∀ s : String, (Reliability.deserialize s).isOk = true
        ↔ s ∈ ["B","D","F","H","I","N","R","T","V"])
    ∧ Reliability.deserialize "B" = .ok .Delayed
    ∧ Reliability.deserialize "D" = .ok .Delocated
    ∧ Reliability.deserialize "F" = .ok .RealTimeNotLowFloorEquipped
    ∧ Reliability.deserialize "H" = .ok .RealTimeLowFloorEquipped
    ∧ Reliability.deserialize "I" = .ok .Immobilized
    ∧ Reliability.deserialize "N" = .ok .Neutralized
    ∧ Reliability.deserialize "R" = .ok .RadioFault
    ∧ Reliability.deserialize "T" = .ok .Estimated
    ∧ Reliability.deserialize "V" = .ok .Diverted
    ∧ (∀ s : String, (StopType.deserialize s).isOk = true ↔ s ∈ ["D","N","P","R"])
    ∧ StopType.deserialize "D" = .ok .Terminus
    ∧ StopType.deserialize "N" = .ok .Normal
    ∧ StopType.deserialize "P" = .ok .PartRoute
    ∧ StopType.deserialize "R" = .ok .Reference
    ∧ (∀ s : String, (Direction.deserialize s).isOk = true ↔ s ∈ ["A","R"])
    ∧ Direction.deserialize "A" = .ok .Inbound
    ∧ Direction.deserialize "R" = .ok .Outbound
    ∧ (∀ i : Nat, (DisruptionLevel.deserialize i).isOk = true ↔ i ∈ [1,2,3])
    ∧ DisruptionLevel.deserialize 1 = .ok .Informative
    ∧ DisruptionLevel.deserialize 2 = .ok .Minor
    ∧ DisruptionLevel.deserialize 3 = .ok .Major
    ∧ (∀ i : Nat, (DisruptionType.deserialize i).isOk = true ↔ i ∈ [0,1,2,3])
    ∧ DisruptionType.deserialize 0 = .ok .All
    ∧ DisruptionType.deserialize 1 = .ok .Network
    ∧ DisruptionType.deserialize 2 = .ok .Service
    ∧ DisruptionType.deserialize 3 = .ok .BusStop
    ∧ (∀ s : String, (Operator.deserialize s).isOk = true ↔ s ∈ ["LB","0","ALL"])
    ∧ Operator.deserialize "LB" = .ok .LothianBuses
    ∧ Operator.deserialize "0" = .ok .AllOperators
    ∧ Operator.deserialize "ALL" = .ok .AllOperators := by
  refine ⟨?_, rfl, rfl, rfl, rfl, rfl, rfl, rfl, rfl, rfl,
          ?_, rfl, rfl, rfl, rfl,
          ?_, rfl, rfl,
          ?_, rfl, rfl, rfl,
          ?_, rfl, rfl, rfl, rfl,
          ?_, rfl, rfl, rfl⟩ <;>
    intro s <;>
    · simp only [Reliability.deserialize, StopType.deserialize,
        Direction.deserialize, DisruptionLevel.deserialize,
        DisruptionType.deserialize, Operator.deserialize]
      split_ifs <;> simp_all [Except.isOk, Except.toBool]

/-- C8: two `get_key` reads on the same state at two instants within the
same UTC clock hour return identical tokens, and the later call performs no
recomputation: it leaves the stored token and generation timestamp exactly
as the first call left them. -/
theorem C8_get_key_idempotent_within_hour (md5hex : String → String)
    (st : ApiKey) (t1 t2 : UtcDateTime) (h : sameUtcClockHour t1 t2) :
    (((st.get_key md5hex t1).1.get_key md5hex t2).2 = (st.get_key md5hex t1).2)
    ∧ ((st.get_key md5hex t1).1.get_key md5hex t2).1 = (st.get_key md5hex t1).1 := by
  obtain ⟨-, -, -, h4⟩ := h
  by_cases hg : st.generated.hour = t1.hour
  · rw [get_key_hour_eq md5hex st t1 hg, get_key_hour_eq md5hex st t2 (hg.trans h4)]
    exact ⟨rfl, rfl⟩
  · rw [get_key_hour_ne md5hex st t1 hg]
    rw [get_key_hour_eq md5hex _ t2 h4]
    exact ⟨rfl, rfl⟩

theorem C8_witness :
    ((stEx.get_key id ⟨2026,10,12,10,0⟩).1.get_key id ⟨2026,10,12,10,59⟩).2
      = (stEx.get_key id ⟨2026,10,12,10,0⟩).2
    ∧ ((stEx.get_key id ⟨2026,10,12,10,0⟩).1.get_key id ⟨2026,10,12,10,59⟩).1
      = (stEx.get_key id ⟨2026,10,12,10,0⟩).1 :=
  C8_get_key_idempotent_within_hour id stEx ⟨2026,10,12,10,0⟩ ⟨2026,10,12,10,59⟩
    ⟨rfl, rfl, rfl, rfl⟩

/-- C9: calling `get_journey_times` with no stop id, journey identifier
`JourneyId "12345"`, operator `AllOperators`, the current day and mode
`All` issues a request whose query carries exactly the fragment
`journeyId=12345&operator=0&day=0&mode=0`, in that order, after the
function-selection parameters; the last two conjuncts record that this
parameter fragment contains the required fragment and no `stopId=`
occurrence. -/
theorem C9_journey_times_query (md5hex : String → String) (st : ApiKey)
    (now : UtcDateTime) :
    (get_journey_times md5hex st now 20000 none (.JourneyId "12345")
        .AllOperators 20000 .All).2
      = .ok (rootUrlBase ++ "?" ++ rootUrlQuery ++ "&" ++ "key="
          ++ (st.get_key md5hex now).2
          ++ "&function=" ++ "getJourneyTimes" ++ "&"
          ++ "journeyId=12345&operator=0&day=0&mode=0")
    ∧ hasSeq "journeyId=12345&operator=0&day=0&mode=0".data
        "journeyId=12345&operator=0&day=0&mode=0".data = true
    ∧ hasSeq "stopId=".data
        "journeyId=12345&operator=0&day=0&mode=0".data = false := by
  refine ⟨?_, by decide, by decide⟩
  simp only [get_journey_times.eq_def, MyBusTracker.get_uri, Operator.display,
    JourneyTimeMode.display, String.append_assoc]
  rfl

/-- C10: two `get_bus_times` calls identical in everything but the
`operator_id` fields of their timetable entries build exactly the same
result (same request URI and same final state): the `operator_id` field of
`Timetable` is never transmitted. -/
theorem C10_operator_id_not_transmitted (md5hex : String → String)
    (st : ApiKey) (now : UtcDateTime) (today : Int) (departure_count : Nat)
    (departure_day : Option Int) (departure_time : Option NaiveTimeModel)
    (ts1 ts2 : List Timetable)
    (h : List.Forall₂ sameTimetableButOperator ts1 ts2) :
    get_bus_times md5hex st now today ts1 departure_count departure_day
        departure_time
      = get_bus_times md5hex st now today ts2 departure_count departure_day
        departure_time := by
  simp only [get_bus_times.eq_def, h.length_eq, timeRequests_congr h]

theorem C10_witness :
    get_bus_times id stEx nowEx 100 [⟨"s","r","d", .AllOperators⟩] 2 none none
      = get_bus_times id stEx nowEx 100 [⟨"s","r","d", .LothianBuses⟩] 2 none none :=
  C10_operator_id_not_transmitted id stEx nowEx 100 2 none none _ _
    (List.Forall₂.cons ⟨rfl, rfl, rfl⟩ List.Forall₂.nil)
